import Mathlib

/-!
# Verification of the lite-llm-chatflow service (`src/main.py`)

Shallow embedding of the single-endpoint FastAPI service in `src/main.py`.
The service exposes `POST /chat`: it receives a JSON body with a `message`
field, trims surrounding whitespace, rejects an empty trimmed message with
HTTP 400, forwards the trimmed message to the LiteLLM adapter's
`generate`, converts any exception raised by the adapter into HTTP 500,
and otherwise returns HTTP 200 with the generated text.

Modelling choices:
* A backend (`lite_llm_instance.generate`) is a total function
  `String → Except String String`; `Except.error m` models the backend
  raising an exception whose `str(e)` is `m`.
* `pyStrip` models Python's `str.strip()` (strip whitespace from both
  ends), written structurally over the character list so that it
  evaluates by kernel reduction.
* The HTTP outcome of one request is the inductive `HttpResult`:
  a 200 body `{"response": ...}`, a FastAPI `HTTPException` with status
  code and `detail` string, or the framework-level 422 schema-validation
  failure produced before the handler runs.
* The module-level state (`lite_llm_instance`, created once at startup)
  is the structure `ServerState`; the handler is explicit state-passing
  `ServerState → String → HttpResult × ServerState`.
* `chat_endpoint_calls` instruments the same control flow and returns
  the list of prompts passed to the backend's `generate` during the
  request, used to state claims about when the backend is (not) invoked.
-/

/-- Python's `str.strip()` with no argument: remove whitespace from both
ends of the string, leaving the interior untouched. -/
def pyStrip (s : String) : String :=
  ⟨((s.data.dropWhile Char.isWhitespace).reverse.dropWhile
      Char.isWhitespace).reverse⟩

/-- The type of a generation backend: `generate : str -> str`, which may
raise an exception carrying an error message (`Except.error`). -/
def Backend : Type := String → Except String String

/-- `LiteLLMMock.generate` from `src/main.py`: returns `f"Echo: {prompt}"`,
never raising. -/
def LiteLLMMock.generate (prompt : String) : String :=
  "Echo: " ++ prompt

/-- The mock adapter as a `Backend`: its `generate` always succeeds. -/
def liteLLMMockBackend : Backend :=
  fun prompt => Except.ok (LiteLLMMock.generate prompt)

/-- `initialize_lite_llm` from `src/main.py`: returns the module-level
`lite_llm` object unchanged. -/
def initialize_lite_llm (lite_llm : Backend) : Backend :=
  lite_llm

/-- The module-level mutable state of the service: the single adapter
instance `lite_llm_instance`. -/
structure ServerState where
  lite_llm_instance : Backend

/-- Process startup (`lite_llm_instance = initialize_lite_llm()`): the
adapter instance is created once, from the available `lite_llm` object. -/
def startServer (lite_llm : Backend) : ServerState :=
  ⟨initialize_lite_llm lite_llm⟩

/-- The HTTP outcome of one request. -/
inductive HttpResult where
  /-- HTTP 200 with body `{"response": text}` (a `MessageResponse`). -/
  | ok (response : String)
  /-- A FastAPI `HTTPException` with the given status code, giving a body
  `{"detail": detail}`. -/
  | httpError (status : Nat) (detail : String)
  /-- FastAPI's HTTP 422 request-shape (schema) validation failure,
  produced by the framework before the handler body runs. -/
  | validationError
  deriving DecidableEq, Repr

/-- The HTTP status code of an outcome. -/
def HttpResult.statusCode : HttpResult → Nat
  | .ok _ => 200
  | .httpError status _ => status
  | .validationError => 422

/-- The `chat_endpoint` handler from `src/main.py`, as explicit state
passing. `message` is the `message` field of the parsed `MessageRequest`;
the returned state is the module-level state after the request. -/
def chat_endpoint (s : ServerState) (message : String) :
    HttpResult × ServerState :=
  let user_message := pyStrip message
  if user_message = "" then
    (.httpError 400 "The 'message' field cannot be empty.", s)
  else
    match s.lite_llm_instance user_message with
    | .error e => (.httpError 500 ("Error generating response: " ++ e), s)
    | .ok generated_text => (.ok generated_text, s)

/-- Instrumentation of `chat_endpoint`: the list of prompts passed to the
backend's `generate` while handling the request, mirroring the handler's
control flow (`generate` is reached only past the emptiness check). -/
def chat_endpoint_calls (s : ServerState) (message : String) : List String :=
  let user_message := pyStrip message
  if user_message = "" then
    []
  else
    match s.lite_llm_instance user_message with
    | .error _ => [user_message]
    | .ok _ => [user_message]

/-- Modelled from the spec: FastAPI's request-shape validation for the
`MessageRequest` model (`message: str = Field(...)`, a required field) is
framework code not present in `src/`. Per the spec, a POST body lacking
the `message` field fails schema validation with HTTP 422 before the
handler body is entered; a body carrying the field reaches the handler.
The body is `Option String`: `none` when the `message` field is missing. -/
def handle_request (handler : ServerState → String → HttpResult × ServerState)
    (s : ServerState) (body : Option String) : HttpResult × ServerState :=
  match body with
  | none => (.validationError, s)
  | some message => handler s message

/-! ## Helper lemmas -/

/-- In every branch the handler returns the module-level state unchanged:
nothing in `chat_endpoint` assigns to `lite_llm_instance` or any other
module-level name. -/
theorem chat_endpoint_preserves_state (s : ServerState) (message : String) :
    (chat_endpoint s message).2 = s := by
  unfold chat_endpoint
  by_cases h : pyStrip message = ""
  · simp [h]
  · simp only [h, if_neg]
    cases hg : s.lite_llm_instance (pyStrip message) <;> simp [hg, h]

/-! ## Claims -/

/-- Claim C1 as stated is false on the code: for the message `" hi "`
(non-empty and not whitespace-only) with the echo mock backend, the
response is NOT the backend's output on the exact untrimmed string
`" hi "` (which would be `"Echo:  hi "`): the handler strips the message
before calling `generate`, so the body is `"Echo: hi"`. -/
theorem C1_counterexample :
    pyStrip " hi " ≠ "" ∧
    (chat_endpoint (startServer liteLLMMockBackend) " hi ").1
      ≠ HttpResult.ok (LiteLLMMock.generate " hi ") := by
  refine ⟨by decide, by decide⟩

/-- Claim C1 (amended): for every request whose `message` is non-empty
after stripping surrounding whitespace, if the backend succeeds on the
STRIPPED message with output `out`, the endpoint returns HTTP 200 with
the `response` field equal to `out`. -/
theorem C1_success_returns_backend_output (s : ServerState)
    (message out : String) (hne : pyStrip message ≠ "")
    (hgen : s.lite_llm_instance (pyStrip message) = Except.ok out) :
    ((chat_endpoint s message).1).statusCode = 200 ∧
    (chat_endpoint s message).1 = HttpResult.ok out := by
  unfold chat_endpoint
  simp [hne, hgen, HttpResult.statusCode]

/-- Witness for the amended claim C1 at the concrete message `"hi"` with
the echo mock backend. -/
theorem C1_success_witness :
    pyStrip "hi" ≠ "" ∧
    (startServer liteLLMMockBackend).lite_llm_instance (pyStrip "hi")
      = Except.ok "Echo: hi" ∧
    (((chat_endpoint (startServer liteLLMMockBackend) "hi").1).statusCode
        = 200 ∧
      (chat_endpoint (startServer liteLLMMockBackend) "hi").1
        = HttpResult.ok "Echo: hi") :=
  ⟨by decide, rfl,
    C1_success_returns_backend_output (startServer liteLLMMockBackend)
      "hi" "Echo: hi" (by decide) rfl⟩

/-- Claim C2: whenever generation is reached (the stripped message is
non-empty) and the backend raises an exception with error text `m`, the
endpoint returns HTTP 500 whose body detail is exactly the string
`"Error generating response: "` followed by `m`. -/
theorem C2_backend_error_maps_to_500 (s : ServerState) (message m : String)
    (hne : pyStrip message ≠ "")
    (hgen : s.lite_llm_instance (pyStrip message) = Except.error m) :
    (chat_endpoint s message).1
      = HttpResult.httpError 500 ("Error generating response: " ++ m) := by
  unfold chat_endpoint
  simp [hne, hgen]

/-- Witness for claim C2: a backend that always raises `"boom"`, at the
concrete message `"hi"`. -/
theorem C2_witness :
    pyStrip "hi" ≠ "" ∧
    (startServer (fun _ => Except.error "boom")).lite_llm_instance
        (pyStrip "hi") = Except.error "boom" ∧
    (chat_endpoint (startServer (fun _ => Except.error "boom")) "hi").1
      = HttpResult.httpError 500 ("Error generating response: " ++ "boom") :=
  ⟨by decide, rfl,
    C2_backend_error_maps_to_500 (startServer (fun _ => Except.error "boom"))
      "hi" "boom" (by decide) rfl⟩

/-- Claim C3: for every request whose `message` is empty after stripping
surrounding whitespace, the endpoint returns HTTP 400 with body detail
exactly `"The 'message' field cannot be empty."`. -/
theorem C3_empty_message_400 (s : ServerState) (message : String)
    (h : pyStrip message = "") :
    (chat_endpoint s message).1
      = HttpResult.httpError 400 "The 'message' field cannot be empty." := by
  unfold chat_endpoint
  simp [h]

/-- Witness for claim C3 at the whitespace-only message `"   "`. -/
theorem C3_witness :
    pyStrip "   " = "" ∧
    (chat_endpoint (startServer liteLLMMockBackend) "   ").1
      = HttpResult.httpError 400 "The 'message' field cannot be empty." :=
  ⟨by decide,
    C3_empty_message_400 (startServer liteLLMMockBackend) "   " (by decide)⟩

/-- Claim C4: with a deterministic backend (every `Backend` here is a
function, hence deterministic), calling the endpoint a second time with
the same message, starting from the state the first call left, yields the
identical response. -/
theorem C4_idempotent (s : ServerState) (message : String) :
    (chat_endpoint s message).1
      = (chat_endpoint ((chat_endpoint s message).2) message).1 := by
  rw [chat_endpoint_preserves_state]

/-- Claim C5: with the echo mock adapter, posting
`{"message": "Hello, how are you?"}` returns HTTP 200 with body
`{"response": "Echo: Hello, how are you?"}` (and leaves the state
unchanged). -/
theorem C5_echo_scenario :
    chat_endpoint (startServer liteLLMMockBackend) "Hello, how are you?"
      = (HttpResult.ok "Echo: Hello, how are you?",
          startServer liteLLMMockBackend) ∧
    ((chat_endpoint (startServer liteLLMMockBackend)
        "Hello, how are you?").1).statusCode = 200 :=
  ⟨rfl, rfl⟩

/-- Claim C6 (modelled from the spec, as the framework's schema
validation is not in `src/`): a POST body lacking the `message` field is
answered with the HTTP 422 schema-validation failure, for EVERY handler
and every state: the handler body is never entered and the state is
untouched. -/
theorem C6_missing_message_422
    (handler : ServerState → String → HttpResult × ServerState)
    (s : ServerState) :
    handle_request handler s none = (HttpResult.validationError, s) ∧
    HttpResult.validationError.statusCode = 422 :=
  ⟨rfl, rfl⟩

/-- Claim C7: for every message and every backend behaviour (including
raising), the handler terminates in exactly one of three outcomes:
HTTP 200 with some response body, HTTP 400 with the fixed invalid-input
detail, or HTTP 500 with an `"Error generating response: ..."` detail. -/
theorem C7_total_outcomes (s : ServerState) (message : String) :
    (∃ text, (chat_endpoint s message).1 = HttpResult.ok text) ∨
    (chat_endpoint s message).1
      = HttpResult.httpError 400 "The 'message' field cannot be empty." ∨
    (∃ m, (chat_endpoint s message).1
      = HttpResult.httpError 500 ("Error generating response: " ++ m)) := by
  unfold chat_endpoint
  by_cases h : pyStrip message = ""
  · right; left; simp [h]
  · cases hg : s.lite_llm_instance (pyStrip message) with
    | error e => right; right; exact ⟨e, by simp [h, hg]⟩
    | ok t => left; exact ⟨t, by simp [h, hg]⟩

/-- Claim C8: the adapter instance is created once at startup from the
available `lite_llm` object, and every invocation of the endpoint leaves
the module-level state — in particular the adapter — unchanged. -/
theorem C8_adapter_frame (lite_llm : Backend) (s : ServerState)
    (message : String) :
    (startServer lite_llm).lite_llm_instance = initialize_lite_llm lite_llm ∧
    (chat_endpoint s message).2 = s ∧
    ((chat_endpoint s message).2).lite_llm_instance = s.lite_llm_instance :=
  ⟨rfl, chat_endpoint_preserves_state s message,
    congrArg ServerState.lite_llm_instance
      (chat_endpoint_preserves_state s message)⟩

/-- Claim C9: every prompt passed to the backend's `generate` during a
request equals the request's `message` with surrounding whitespace
stripped, and is non-empty. -/
theorem C9_backend_called_with_stripped (s : ServerState)
    (message prompt : String)
    (h : prompt ∈ chat_endpoint_calls s message) :
    prompt = pyStrip message ∧ prompt ≠ "" := by
  unfold chat_endpoint_calls at h
  by_cases he : pyStrip message = ""
  · simp [he] at h
  · simp only [he, if_neg] at h
    cases hg : s.lite_llm_instance (pyStrip message) <;>
      rw [hg] at h <;> simp at h <;> simp [h, he]

/-- Witness for claim C9: posting `" hi "` with the echo mock backend
calls `generate` with the stripped prompt `"hi"`. -/
theorem C9_witness :
    ("hi" ∈ chat_endpoint_calls (startServer liteLLMMockBackend) " hi ") ∧
    ("hi" = pyStrip " hi " ∧ "hi" ≠ "") :=
  ⟨by decide,
    C9_backend_called_with_stripped (startServer liteLLMMockBackend)
      " hi " "hi" (by decide)⟩

/-- Claim C10: for every request whose message is empty after stripping,
the backend's `generate` is never invoked: the list of prompts passed to
the backend during the request is empty. -/
theorem C10_no_backend_call_on_invalid (s : ServerState) (message : String)
    (h : pyStrip message = "") :
    chat_endpoint_calls s message = [] := by
  unfold chat_endpoint_calls
  simp [h]

/-- Witness for claim C10 at the whitespace-only message `"   "`. -/
theorem C10_witness :
    pyStrip "   " = "" ∧
    chat_endpoint_calls (startServer liteLLMMockBackend) "   " = [] :=
  ⟨by decide,
    C10_no_backend_call_on_invalid (startServer liteLLMMockBackend) "   "
      (by decide)⟩
